import Mathlib

/-!
Verification development for the cheatsheet-mcp repository: a shallow
embedding of its line-oriented JSON dispatch loops (camera_mcp_server.py,
cash_server.py, cheatsheet_server.py), the bounded process runner, and the
MQTT bridge (camera_mqtt_connector.py), together with theorems settling
the specification claims about them.

Conventions of the embedding:
- JSON values are modelled by the inductive `Json`; objects are
  insertion-ordered association lists, matching the insertion order of the
  Python dict literals in the source.  Numbers are modelled as integers
  (every number appearing in the claims is an integer).
- The behaviour of the operating system and of asyncio/subprocess is an
  explicit oracle (`RunOutcome`): an external process either fails to
  spawn, raises after spawning, completes with an exit code and output,
  or is still running when the timeout elapses.
- Side effects on the process table are recorded as an explicit event
  list (`ProcEvent`): which commands were launched and whether a kill was
  issued.
- Fallible Python code (statements that can raise) is modelled with
  `Except String`, the `String` being Python's `str(exception)`.
-/

/-- JSON values as produced by Python's json.loads / consumed by
json.dumps.  Objects are insertion-ordered association lists. -/
inductive Json where
  | null
  | bool (b : Bool)
  | num (n : Int)
  | str (s : String)
  | arr (xs : List Json)
  | obj (kvs : List (String × Json))

/-- A JSON object: an insertion-ordered association list. -/
abbrev JObj := List (String × Json)

/-- Python dict lookup on an association list.  Later bindings win, which
agrees with json.loads deduplication of repeated keys. -/
def jget (kvs : JObj) (k : String) : Option Json :=
  match kvs with
  | [] => none
  | kv :: rest =>
    match jget rest k with
    | some v => some v
    | none => if kv.1 == k then some kv.2 else none

/-- Python `k in d` for a dict. -/
def hasKey (kvs : JObj) (k : String) : Bool :=
  kvs.any (fun kv => kv.1 == k)

/-- Python `d[k] = v`: replace the binding if the key is present,
otherwise append the new binding at the end (insertion order). -/
def objSet (kvs : JObj) (k : String) (v : Json) : JObj :=
  if hasKey kvs k then kvs.map (fun kv => if kv.1 == k then (k, v) else kv)
  else kvs ++ [(k, v)]

/-- Python truthiness of a JSON value. -/
def pyTruthy : Json → Bool
  | .null => false
  | .bool b => b
  | .num n => n != 0
  | .str s => s != ""
  | .arr xs => !xs.isEmpty
  | .obj kvs => !kvs.isEmpty

/-- Python type name of a JSON value, as it appears in error messages. -/
def pyTypeName : Json → String
  | .null => "NoneType"
  | .bool _ => "bool"
  | .num _ => "int"
  | .str _ => "str"
  | .arr _ => "list"
  | .obj _ => "dict"

/-- Python repr of a JSON value (used by str() on containers).  String
escaping inside repr is not modelled beyond quoting: no claim inspects
the repr of a container or of a string containing quotes. -/
def pyRepr : Json → String
  | .null => "None"
  | .bool b => cond b "True" "False"
  | .num n => toString n
  | .str s => "\x27" ++ s ++ "\x27"
  | .arr xs => "[" ++ String.intercalate ", " (xs.attach.map (fun x => pyRepr x.1)) ++ "]"
  | .obj kvs =>
    "\x7b" ++
      String.intercalate ", "
        (kvs.attach.map (fun kv => "\x27" ++ kv.1.1 ++ "\x27: " ++ pyRepr kv.1.2)) ++
      "\x7d"
decreasing_by
  · have h1 := List.sizeOf_lt_of_mem x.2
    simp only [Json.arr.sizeOf_spec]
    omega
  · have h1 := List.sizeOf_lt_of_mem kv.2
    have h2 : sizeOf kv.1.2 < sizeOf kv.1 := by
      rcases kv with ⟨⟨k, v⟩, hm⟩
      simp [Prod.mk.sizeOf_spec]
    simp only [Json.obj.sizeOf_spec]
    omega

/-- Python str() of a JSON value, as interpolated by an f-string:
the string itself for strings, the repr for containers. -/
def pyFStr : Json → String
  | .str s => s
  | .null => "None"
  | .bool b => cond b "True" "False"
  | .num n => toString n
  | v => pyRepr v

/-- Python `==` between a JSON value and a string literal. -/
def jeq (j : Json) (s : String) : Bool :=
  match j with
  | .str t => t == s
  | _ => false

/-- needle is a prefix of hay (on character lists). -/
def charsStartWith : List Char → List Char → Bool
  | [], _ => true
  | _ :: _, [] => false
  | a :: as, b :: bs => a == b && charsStartWith as bs

/-- needle occurs contiguously inside hay (on character lists). -/
def charsContain (needle : List Char) : List Char → Bool
  | [] => needle.isEmpty
  | c :: cs => charsStartWith needle (c :: cs) || charsContain needle cs

/-- Python `needle in hay` for strings: contiguous substring test. -/
def containsSubstr (needle hay : String) : Bool :=
  charsContain needle.data hay.data

/-- The whitespace characters recognised by Python's str.split(). -/
def isPySpace (c : Char) : Bool :=
  c == ' ' || c == '\t' || c == '\n' || c == '\r' || c == '\x0b' || c == '\x0c'

/-- Accumulating worker for `pySplit`. -/
def pySplitAux : List Char → List Char → List String
  | [], acc => if acc.isEmpty then [] else [⟨acc.reverse⟩]
  | c :: cs, acc =>
    if isPySpace c then
      if acc.isEmpty then pySplitAux cs [] else ⟨acc.reverse⟩ :: pySplitAux cs []
    else pySplitAux cs (c :: acc)

/-- Python str.split() with no argument: split on runs of whitespace,
discarding empty tokens. -/
def pySplit (s : String) : List String :=
  pySplitAux s.data []

/-- Python value.lstrip(the dash character): drop all leading dashes. -/
def lstripMinus (s : String) : String :=
  ⟨s.data.dropWhile (· == '-')⟩

/-- Python str.isdigit(): nonempty and every character a digit.  Only
ASCII digits are modelled. -/
def pyIsdigit (s : String) : Bool :=
  !s.data.isEmpty && s.data.all Char.isDigit

/-- Numeric value of a list of ASCII digit characters. -/
def digitsToNat (cs : List Char) : Nat :=
  cs.foldl (fun acc c => acc * 10 + (c.toNat - '0'.toNat)) 0

/-- Python int(s) for the strings reaching it in ptz_control: s consists
of leading dashes followed by digits (guaranteed by the preceding
lstrip/isdigit test).  More than one dash is a ValueError. -/
def pyIntLstrip (s : String) : Except String Int :=
  let dashes := s.data.takeWhile (· == '-')
  let digits := s.data.dropWhile (· == '-')
  match dashes with
  | [] => .ok (Int.ofNat (digitsToNat digits))
  | ['-'] => .ok (-(Int.ofNat (digitsToNat digits)))
  | _ => .error ("invalid literal for int() with base 10: \x27" ++ s ++ "\x27")

example : pySplit "forbidden ls" = ["forbidden", "ls"] := by decide
example : pySplit "   " = [] := by decide
example : pySplit "" = [] := by decide
example : containsSubstr "/ptz/command" "camera/camera1/ptz/command" = true := by decide
example : containsSubstr "id" "xidx" = true := by decide
example : pyIntLstrip "-2000" = .ok (-2000) := rfl
example : pyIntLstrip "007" = .ok 7 := rfl
example : jget [("a", .num 1), ("a", .num 2)] "a" = some (.num 2) := rfl

/-! ## Bounded process runner (camera_mcp_server.CameraManager._run_command,
and the inline subprocess logic of cash_server.ClaudeShellExecutor.execute_command)

The operating-system side of one subprocess invocation is an oracle. -/

/-- Oracle describing how one external process invocation behaves:
the spawn call itself raises, the awaited code raises after the spawn,
the process completes within the timeout, or it is still running when the
timeout elapses. -/
inductive RunOutcome where
  | spawnError (msg : String)
  | innerError (msg : String)
  | completed (code : Int) (out err : String)
  | timedOut

/-- Process-table side effects of a runner invocation: which command was
launched, and whether a kill signal was sent. -/
inductive ProcEvent (α : Type) where
  | launched (cmd : α)
  | killed
deriving DecidableEq, Repr

/-- The result dictionary built by both runners.  `error` is present only
in the failure dictionaries, matching the dict literals in the source. -/
structure ProcessResult where
  success : Bool
  stdout : String
  stderr : String
  exitCode : Int
  error : Option String
deriving DecidableEq, Repr

/-- The result dict serialized back to JSON: key order follows the dict
literals in the source (success, [error,] stdout, stderr, exit_code). -/
def ProcessResult.toJObj (r : ProcessResult) : JObj :=
  match r.error with
  | none => [("success", .bool r.success), ("stdout", .str r.stdout),
             ("stderr", .str r.stderr), ("exit_code", .num r.exitCode)]
  | some e => [("success", .bool r.success), ("error", .str e), ("stdout", .str r.stdout),
               ("stderr", .str r.stderr), ("exit_code", .num r.exitCode)]

/-- CameraManager._run_command: run an argument-vector command under a
timeout; on timeout kill the process and return the fixed timeout result;
on any exception return a generic failure result. -/
def runCommand (outcome : RunOutcome) (cmd : List String) (timeout : Int) :
    ProcessResult × List (ProcEvent (List String)) :=
  match outcome with
  | .spawnError msg => (⟨false, "", "", -1, some msg⟩, [])
  | .innerError msg => (⟨false, "", "", -1, some msg⟩, [.launched cmd])
  | .completed code out err => (⟨code == 0, out, err, code, none⟩, [.launched cmd])
  | .timedOut =>
    (⟨false, "", "", -1, some ("Command timed out after " ++ toString timeout ++ "s")⟩,
     [.launched cmd, .killed])

/-! ## cash_server.ClaudeShellExecutor -/

/-- One entry of the command history log.  The event-loop timestamp is an
opaque value supplied by the environment. -/
structure LogEntry where
  timestamp : Int
  command : String
  success : Bool
  exitCode : Int
deriving DecidableEq, Repr

/-- LogEntry rendered back to JSON in the order of the dict literal. -/
def LogEntry.toJson (e : LogEntry) : Json :=
  .obj [("timestamp", .num e.timestamp), ("command", .str e.command),
        ("success", .bool e.success), ("exit_code", .num e.exitCode)]

/-- ClaudeShellExecutor._log_command: append one entry, then trim to the
last 100 entries when the bound is exceeded. -/
def logCommand (now : Int) (command : String) (success : Bool) (exitCode : Int)
    (log : List LogEntry) : List LogEntry :=
  let log' := log ++ [⟨now, command, success, exitCode⟩]
  if log'.length > 100 then log'.drop (log'.length - 100) else log'

/-- The hard-coded default allowlist of ClaudeShellExecutor
(_load_allowed_commands when allowed_commands.txt is absent; a present
file is modelled by passing a different list). -/
def defaultAllowedCommands : List String :=
  ["python3", "pip", "git", "curl", "ls", "cat", "head", "tail",
   "mkdir", "cp", "mv", "rm", "find", "grep", "which", "say",
   "docker", "docker-compose", "nvidia-smi"]

/-- ClaudeShellExecutor._is_command_allowed: membership of the first
whitespace-delimited token.  A nonempty all-whitespace command makes
command.split()[0] raise IndexError. -/
def isCommandAllowed (allowed : List String) (command : String) : Except String Bool :=
  if command = "" then .ok (allowed.contains "")
  else
    match pySplit command with
    | [] => .error "list index out of range"
    | t :: _ => .ok (allowed.contains t)

/-- ClaudeShellExecutor.execute_command: allowlist gate, then the guarded
subprocess invocation; returns the result, the updated history log and
the process events.  An IndexError from the allowlist check (or from the
f-string of the rejection message) escapes as Except.error. -/
def executeCommand (allowed : List String) (outcome : RunOutcome) (now : Int)
    (command : String) (timeout : Json) (log : List LogEntry) :
    Except String (ProcessResult × List LogEntry × List (ProcEvent String)) :=
  match isCommandAllowed allowed command with
  | .error e => .error e
  | .ok true =>
    let re : ProcessResult × List (ProcEvent String) :=
      match outcome with
      | .spawnError msg => (⟨false, "", "", -1, some msg⟩, [])
      | .innerError msg => (⟨false, "", "", -1, some msg⟩, [.launched command])
      | .completed code out err => (⟨code == 0, out, err, code, none⟩, [.launched command])
      | .timedOut =>
        (⟨false, "", "", -1, some ("Command timed out after " ++ pyFStr timeout ++ "s")⟩,
         [.launched command, .killed])
    .ok (re.1, logCommand now command re.1.success re.1.exitCode log, re.2)
  | .ok false =>
    match pySplit command with
    | [] => .error "list index out of range"
    | t :: _ =>
      let r : ProcessResult := ⟨false, "", "", -1, some ("Command not allowed: " ++ t)⟩
      .ok (r, logCommand now command false (-1) log, [])

/-- The generic error response dict used by the dispatchers. -/
def errResp (code : Int) (msg : String) : JObj :=
  [("error", .obj [("code", .num code), ("message", .str msg)])]

/-- The success wrapper used by the dispatchers. -/
def okResp (result : Json) : JObj :=
  [("result", result)]

/-- Insertion sort of the allowlist, modelling Python sorted(list(set))
(the set is modelled as the deduplicated list). -/
def insertSorted (s : String) : List String → List String
  | [] => [s]
  | t :: ts => if s ≤ t then s :: t :: ts else t :: insertSorted s ts

/-- sorted(list(set(allowed))). -/
def sortStrings (l : List String) : List String :=
  l.eraseDups.foldr insertSorted []

/-- Python log[-limit:]: slice from index -limit to the end, with
Python's clamping rules for negative start indices. -/
def pySliceLast (limit : Int) (l : List LogEntry) : List LogEntry :=
  let len : Int := l.length
  let start : Int := -limit
  let i := if start < 0 then max 0 (len + start) else min start len
  l.drop i.toNat

/-- ClaudeShellExecutor.handle_mcp_request: route a request by method
name; any exception is caught at this boundary and converted into a
code -1 error response.  Returns the response object, the updated log
and the process events of the call. -/
def cashHandle (allowed : List String) (outcome : RunOutcome) (now : Int)
    (log : List LogEntry) (request : Json) :
    JObj × List LogEntry × List (ProcEvent String) :=
  match request with
  | .obj kvs =>
    let method := (jget kvs "method").getD .null
    let params := (jget kvs "params").getD (.obj [])
    if jeq method "execute_command" then
      match params with
      | .obj pkvs =>
        let commandJ := (jget pkvs "command").getD (.str "")
        let timeoutJ := (jget pkvs "timeout").getD (.num 30)
        if !pyTruthy commandJ then
          (errResp (-1) "No command provided", log, [])
        else
          match commandJ with
          | .str command =>
            match executeCommand allowed outcome now command timeoutJ log with
            | .ok (r, log', ev) => (okResp (.obj r.toJObj), log', ev)
            | .error e => (errResp (-1) e, log, [])
          | v => (errResp (-1) ("\x27" ++ pyTypeName v ++ "\x27 object has no attribute \x27split\x27"), log, [])
      | p => (errResp (-1) ("\x27" ++ pyTypeName p ++ "\x27 object has no attribute \x27get\x27"), log, [])
    else if jeq method "list_allowed_commands" then
      (okResp (.obj [("commands", .arr ((sortStrings allowed).map Json.str))]), log, [])
    else if jeq method "get_command_log" then
      match params with
      | .obj pkvs =>
        let limitJ := (jget pkvs "limit").getD (.num 10)
        match limitJ with
        | .num n => (okResp (.obj [("log", .arr ((pySliceLast n log).map LogEntry.toJson))]), log, [])
        | .bool b => (okResp (.obj [("log", .arr ((pySliceLast (cond b 1 0) log).map LogEntry.toJson))]), log, [])
        | v => (errResp (-1) ("bad operand type for unary -: \x27" ++ pyTypeName v ++ "\x27"), log, [])
      | p => (errResp (-1) ("\x27" ++ pyTypeName p ++ "\x27 object has no attribute \x27get\x27"), log, [])
    else
      (errResp (-1) ("Unknown method: " ++ pyFStr method), log, [])
  | v => (errResp (-1) ("\x27" ++ pyTypeName v ++ "\x27 object has no attribute \x27get\x27"), log, [])

/-! ## camera_mcp_server.CameraManager.ptz_control and the camera dispatcher -/

/-- The PTZ commands accepted by ptz_control. -/
def validCommands : List String := ["pan", "tilt", "zoom"]

/-- The preset value tokens accepted by ptz_control. -/
def validValues : List String := ["min", "max", "middle"]

/-- The hard-coded path of the webcam-ptz executable. -/
def webcamPtzPath : String := "/Users/j/Code/logi-ptz/webcam-ptz/webcam-ptz"

/-- The hard-coded pre-step killing the blocking driver process. -/
def pkillCmd : List String := ["sudo", "pkill", "cameracaptured"]

/-- Environment of one ptz_control call: whether the webcam-ptz binary
exists, and the oracle outcomes of the two subprocess invocations it can
make. -/
structure PtzEnv where
  ptzExists : Bool
  pkillOutcome : RunOutcome
  ptzOutcome : RunOutcome

/-- The dict built by ptz_control's own except-clause:
success, error, command, value in the order of the dict literal. -/
def ptzExcept (msg : String) (command value : Json) : JObj :=
  [("success", .bool false), ("error", .str msg), ("command", command), ("value", value)]

/-- The execution stage of ptz_control: kill the blocking driver process,
run the webcam-ptz binary with positional arguments (command, value), and
assemble the response dict. -/
def runPtz (env : PtzEnv) (c v : String) : JObj × List (ProcEvent (List String)) :=
  let pkill := runCommand env.pkillOutcome pkillCmd 30
  let cmd := [webcamPtzPath, c, v]
  let r := runCommand env.ptzOutcome cmd 10
  ([("success", .bool r.1.success), ("command", .str c), ("value", .str v),
    ("output", .str r.1.stdout),
    ("error", if r.1.success then .null else .str r.1.stderr)],
   pkill.2 ++ r.2)

/-- CameraManager.ptz_control: existence check for the binary, command
validation, value validation (preset token or bounded signed integer),
then the execution stage.  Exceptions inside the method body are caught
by its own except-clause (the `ptzExcept` dict). -/
def ptzControl (env : PtzEnv) (command value : Json) : JObj × List (ProcEvent (List String)) :=
  if !env.ptzExists then
    ([("success", .bool false),
      ("error", .str ("webcam-ptz executable not found at " ++ webcamPtzPath))], [])
  else
    match command with
    | .str c =>
      if c == "" || !validCommands.contains c then
        ([("success", .bool false),
          ("error", .str ("Invalid command \x27" ++ c ++ "\x27. Must be one of: pan, tilt, zoom"))], [])
      else
        match value with
        | .null =>
          ([("success", .bool false),
            ("error", .str ("Command \x27" ++ c ++ "\x27 requires a value parameter"))], [])
        | .str s =>
          if validValues.contains s then runPtz env c s
          else if pyIsdigit (lstripMinus s) then
            match pyIntLstrip s with
            | .error e => (ptzExcept e (.str c) (.str s), [])
            | .ok steps =>
              if 1000 < steps.natAbs then
                ([("success", .bool false),
                  ("error", .str ("Step value \x27" ++ toString steps ++
                    "\x27 exceeds safe range (-1000 to 1000)"))], [])
              else runPtz env c s
          else
            ([("success", .bool false),
              ("error", .str ("Invalid value \x27" ++ s ++
                "\x27. Must be one of: min, max, middle or a number of steps"))], [])
        | v =>
          (ptzExcept ("\x27" ++ pyTypeName v ++ "\x27 object has no attribute \x27lstrip\x27")
            (.str c) v, [])
    | other =>
      ([("success", .bool false),
        ("error", .str ("Invalid command \x27" ++ pyFStr other ++
          "\x27. Must be one of: pan, tilt, zoom"))], [])

/-- Environment of the camera server.  The discovery, screenshot and
status handlers always return a dict (they catch their own exceptions);
their contents are irrelevant to every claim and are oracle values. -/
structure CameraEnv where
  ptz : PtzEnv
  listCamerasResult : JObj
  screenshotResult : JObj
  statusResult : JObj

/-- CameraMCPServer.handle_mcp_request: route by method name; any
exception is caught at this boundary and converted into a code -1 error
response. -/
def cameraHandle (env : CameraEnv) (request : Json) : JObj :=
  match request with
  | .obj kvs =>
    let method := (jget kvs "method").getD .null
    let params := (jget kvs "params").getD (.obj [])
    if jeq method "list_cameras" then
      okResp (.obj env.listCamerasResult)
    else if jeq method "take_screenshot" then
      match params with
      | .obj _ => okResp (.obj env.screenshotResult)
      | p => errResp (-1) ("\x27" ++ pyTypeName p ++ "\x27 object has no attribute \x27get\x27")
    else if jeq method "ptz_control" then
      match params with
      | .obj pkvs =>
        let command := (jget pkvs "command").getD (.str "")
        let value := (jget pkvs "value").getD .null
        if !pyTruthy command then errResp (-1) "No PTZ command provided"
        else okResp (.obj (ptzControl env.ptz command value).1)
      | p => errResp (-1) ("\x27" ++ pyTypeName p ++ "\x27 object has no attribute \x27get\x27")
    else if jeq method "get_camera_status" then
      okResp (.obj env.statusResult)
    else
      errResp (-1) ("Unknown method: " ++ pyFStr method)
  | v => errResp (-1) ("\x27" ++ pyTypeName v ++ "\x27 object has no attribute \x27get\x27")

/-! ## The shared id-echo logic of the stdin dispatch loops
(main of camera_mcp_server.py and of cash_server.py) -/

/-- Python `"id" in request` for an arbitrary decoded JSON value:
key membership for dicts, element membership for lists, substring test
for strings, TypeError otherwise. -/
def pyHasIdKey : Json → Except String Bool
  | .obj kvs => .ok (hasKey kvs "id")
  | .arr xs => .ok (xs.any (fun x => match x with | .str s => s == "id" | _ => false))
  | .str s => .ok (containsSubstr "id" s)
  | v => .error ("argument of type \x27" ++ pyTypeName v ++ "\x27 is not iterable")

/-- Python `request["id"]` for an arbitrary decoded JSON value; only
evaluated after the membership test succeeded. -/
def pyGetIdItem : Json → Except String Json
  | .obj kvs =>
    match jget kvs "id" with
    | some v => .ok v
    | none => .error "\x27id\x27"
  | .arr _ => .error "list indices must be integers or slices, not str"
  | .str _ => .error "string indices must be integers"
  | v => .error ("\x27" ++ pyTypeName v ++ "\x27 object is not subscriptable")

/-- The id re-attachment step of the camera and shell-executor dispatch
loops: compute the handler response, then copy the request id onto it if
the request has one; an exception while doing so is caught by the loop
and replaced by a code -1 error response without id. -/
def respondWithId (response : JObj) (request : Json) : JObj :=
  match pyHasIdKey request with
  | .error e => errResp (-1) e
  | .ok false => response
  | .ok true =>
    match pyGetIdItem request with
    | .ok i => objSet response "id" i
    | .error e => errResp (-1) e

/-- One iteration of the camera server's stdin dispatch loop on an
already-decoded line. -/
def cameraStep (env : CameraEnv) (request : Json) : JObj :=
  respondWithId (cameraHandle env request) request

/-- One iteration of the shell-executor dispatch loop on an
already-decoded line. -/
def cashStep (allowed : List String) (outcome : RunOutcome) (now : Int)
    (log : List LogEntry) (request : Json) :
    JObj × List LogEntry × List (ProcEvent String) :=
  match cashHandle allowed outcome now log request with
  | (resp, log', ev) => (respondWithId resp request, log', ev)

/-- The fixed parse-error response of the camera and shell-executor
loops. -/
def parseErrorResponse : JObj :=
  [("error", .obj [("code", .num (-32700)), ("message", .str "Parse error")])]

/-- The camera server's main loop over decoded stdin lines (`none` is a
line on which json.loads raised). -/
def cameraLoop (env : CameraEnv) : List (Option Json) → List JObj
  | [] => []
  | none :: rest => parseErrorResponse :: cameraLoop env rest
  | some v :: rest => cameraStep env v :: cameraLoop env rest

/-- The shell-executor's main loop over decoded stdin lines, threading
the history log through the iterations. -/
def cashLoop (allowed : List String) (outcome : RunOutcome) (now : Int) :
    List LogEntry → List (Option Json) → List JObj
  | _, [] => []
  | log, none :: rest => parseErrorResponse :: cashLoop allowed outcome now log rest
  | log, some v :: rest =>
    match cashStep allowed outcome now log v with
    | (resp, log', _) => resp :: cashLoop allowed outcome now log' rest

/-! ## cheatsheet_server.CheatsheetServer -/

/-- Filesystem environment of the cheatsheet server: whether the
hard-coded Markdown file exists, its content, and whether reading it
raises. -/
structure CheatsheetEnv where
  fileExists : Bool
  readError : Option String
  content : String

/-- The hard-coded path of the cheatsheet file. -/
def cheatsheetPath : String := "/Users/j/Code/AI_CHEATSHEET.md"

/-- CheatsheetServer.get_cheatsheet: read the static file, reporting a
missing file or a read error inside the result dict. -/
def getCheatsheet (env : CheatsheetEnv) : JObj :=
  if !env.fileExists then
    [("content", .str ("Cheatsheet file not found at " ++ cheatsheetPath)),
     ("success", .bool false)]
  else
    match env.readError with
    | some e =>
      [("content", .str ("Error reading cheatsheet: " ++ e)), ("success", .bool false)]
    | none =>
      [("content", .str env.content), ("success", .bool true),
       ("file_path", .str cheatsheetPath)]

/-- The static tool descriptor returned by tools/list. -/
def cheatsheetToolDescriptor : Json :=
  .obj [("name", .str "get_cheatsheet"),
        ("description", .str "Get the AI collaboration cheatsheet content for context injection"),
        ("inputSchema", .obj [("type", .str "object"), ("properties", .obj []),
                              ("required", .arr [])])]

/-- CheatsheetServer.handle_request: routing without a surrounding
try-block, so an attribute error on a non-dict request or non-dict params
escapes to the main loop (Except.error). -/
def cheatsheetHandle (env : CheatsheetEnv) (request : Json) : Except String JObj :=
  match request with
  | .obj kvs =>
    let method := (jget kvs "method").getD .null
    if jeq method "tools/list" then
      .ok [("tools", .arr [cheatsheetToolDescriptor])]
    else if jeq method "tools/call" then
      match (jget kvs "params").getD (.obj []) with
      | .obj pkvs =>
        let toolName := (jget pkvs "name").getD .null
        if jeq toolName "get_cheatsheet" then
          let result := getCheatsheet env
          .ok [("content", .arr [.obj [("type", .str "text"),
                                       ("text", (jget result "content").getD .null)]])]
        else
          .ok [("error", .str ("Unknown tool: " ++ pyFStr toolName))]
      | p => .error ("\x27" ++ pyTypeName p ++ "\x27 object has no attribute \x27get\x27")
    else if jeq method "initialize" then
      .ok [("protocolVersion", .str "2024-11-05"),
           ("capabilities", .obj [("tools", .obj [])])]
    else
      .ok [("error", .str ("Unknown method: " ++ pyFStr method))]
  | v => .error ("\x27" ++ pyTypeName v ++ "\x27 object has no attribute \x27get\x27")

/-- One iteration of the cheatsheet server's loop on a decoded line:
no id re-attachment, and a handler exception is printed as a bare
string-valued error object. -/
def cheatsheetStep (env : CheatsheetEnv) (request : Json) : JObj :=
  match cheatsheetHandle env request with
  | .ok resp => resp
  | .error e => [("error", .str e)]

/-- The parse-error response of the cheatsheet server's loop. -/
def cheatsheetInvalidJson : JObj := [("error", .str "Invalid JSON")]

/-- The cheatsheet server's main loop over decoded stdin lines. -/
def cheatsheetLoop (env : CheatsheetEnv) : List (Option Json) → List JObj
  | [] => []
  | none :: rest => cheatsheetInvalidJson :: cheatsheetLoop env rest
  | some v :: rest => cheatsheetStep env v :: cheatsheetLoop env rest

/-! ## camera_mqtt_connector: the MQTT-to-MCP bridge -/

/-- Environment of the bridge: its configuration, the two timestamps it
can take, whether the proxied camera MCP server process is running,
whether talking to it raises, and the camera server's own environment
(the bridge's request is answered by one iteration of the camera
server's dispatch loop). -/
structure ConnectorEnv where
  cameraId : String
  brokerHost : String
  brokerPort : Int
  nowMs : Int
  nowIso : String
  mcpRunning : Bool
  sendFailure : Option String
  cameraEnv : CameraEnv

/-- CameraMCPClient.send_command: build a JSON-RPC request whose id is
the given command id if it is truthy and a fresh millisecond timestamp
otherwise, send it to the camera MCP server process, and decode one
response line. -/
def sendCommand (env : ConnectorEnv) (method : String) (params : Json)
    (commandId : Json) : Json :=
  if !env.mcpRunning then
    .obj [("error", .str "MCP server not running")]
  else
    match env.sendFailure with
    | some e => .obj [("error", .str e)]
    | none =>
      let rid := if pyTruthy commandId then commandId else .num env.nowMs
      let pj := if pyTruthy params then params else .obj []
      let request : Json := .obj [("method", .str method), ("params", pj), ("id", rid)]
      .obj (cameraStep env.cameraEnv request)

/-- The response topic for a category. -/
def responseTopic (env : ConnectorEnv) (category : String) : String :=
  "camera/" ++ env.cameraId ++ "/" ++ category ++ "/response"

/-- CameraMQTTConnector._handle_ptz_command: forward a PTZ payload to the
MCP server and publish the response.  A non-dict payload raises in the
handler and again in its except-clause, so nothing is published. -/
def handlePtzCommand (env : ConnectorEnv) (payload : Json) : List (String × Json) :=
  match payload with
  | .obj kvs =>
    let command := (jget kvs "command").getD .null
    let value := (jget kvs "value").getD .null
    let requestId := (jget kvs "id").getD .null
    let response := sendCommand env "ptz_control"
      (.obj [("command", command), ("value", value)]) requestId
    [(responseTopic env "ptz", response)]
  | _ => []

/-- CameraMQTTConnector._handle_screenshot_command. -/
def handleScreenshotCommand (env : ConnectorEnv) (payload : Json) : List (String × Json) :=
  match payload with
  | .obj kvs =>
    let cameraName := (jget kvs "camera_name").getD (.str "PTZ Pro Camera")
    let outputPath := (jget kvs "output_path").getD .null
    let requestId := (jget kvs "id").getD .null
    let response := sendCommand env "take_screenshot"
      (.obj [("camera_name", cameraName), ("output_path", outputPath)]) requestId
    [(responseTopic env "screenshot", response)]
  | _ => []

/-- The connector info block appended to a status response. -/
def connectorInfo (env : ConnectorEnv) : Json :=
  .obj [("camera_id", .str env.cameraId),
        ("mqtt_broker", .str (env.brokerHost ++ ":" ++ toString env.brokerPort)),
        ("timestamp", .str env.nowIso)]

/-- CameraMQTTConnector._handle_status_request: forward, then graft the
connector info into the result object before publishing. -/
def handleStatusRequest (env : ConnectorEnv) (payload : Json) : List (String × Json) :=
  match payload with
  | .obj kvs =>
    let requestId := (jget kvs "id").getD .null
    let response := sendCommand env "get_camera_status" .null requestId
    match response with
    | .obj rkvs =>
      match jget rkvs "result" with
      | some (.obj inner) =>
        [(responseTopic env "status",
          .obj (objSet rkvs "result" (.obj (objSet inner "connector" (connectorInfo env)))))]
      | some other =>
        [(responseTopic env "status",
          .obj [("error", .str ("\x27" ++ pyTypeName other ++
                  "\x27 object does not support item assignment")),
                ("id", (jget kvs "id").getD .null)])]
      | none => [(responseTopic env "status", response)]
    | _ => [(responseTopic env "status", response)]
  | _ => []

/-- CameraMQTTConnector._on_message: decode the payload and dispatch on
the topic.  A payload on which json.loads raises (`none`) is caught by
the handler's except-clause, which only logs: nothing is published and
the subscription loop continues. -/
def onMessage (env : ConnectorEnv) (topic : String) (payload : Option Json) :
    List (String × Json) :=
  match payload with
  | none => []
  | some p =>
    if containsSubstr "/ptz/command" topic then handlePtzCommand env p
    else if containsSubstr "/screenshot/command" topic then handleScreenshotCommand env p
    else if containsSubstr "/status/request" topic then handleStatusRequest env p
    else []

/-- The stream of messages published by the bridge while processing a
stream of inbound messages (each paired with its topic; `none` is an
undecodable payload). -/
def processMessages (env : ConnectorEnv) : List (String × Option Json) → List (String × Json)
  | [] => []
  | (t, p) :: rest => onMessage env t p ++ processMessages env rest

/-- A concrete camera environment used by witnesses: the binary exists
and both subprocess invocations complete. -/
def sampleCameraEnv : CameraEnv where
  ptz := { ptzExists := true, pkillOutcome := .completed 0 "" "", ptzOutcome := .completed 0 "ok" "" }
  listCamerasResult := []
  screenshotResult := []
  statusResult := [("success", .bool true)]

/-- The request of the specification's ptz_control end-to-end example. -/
def c4Request : Json :=
  .obj [("method", .str "ptz_control"),
        ("params", .obj [("command", .str "zoom"), ("value", .str "5000")]),
        ("id", .num 1)]

example : cameraStep sampleCameraEnv c4Request =
    [("result", .obj [("success", .bool false),
       ("error", .str "Step value \x275000\x27 exceeds safe range (-1000 to 1000)")]),
     ("id", .num 1)] := rfl

example : cashHandle defaultAllowedCommands (.completed 0 "" "") 0 []
    (.obj [("method", .str "execute_command"),
           ("params", .obj [("command", .str "   ")])]) =
    (errResp (-1) "list index out of range", [], []) := rfl

example : executeCommand defaultAllowedCommands (.completed 0 "" "") 0 "forbidden ls" (.num 30) [] =
    .ok (⟨false, "", "", -1, some "Command not allowed: forbidden"⟩,
         [⟨0, "forbidden ls", false, -1⟩], []) := rfl

example : ptzControl sampleCameraEnv.ptz (.str "zoom") (.str "1000") =
    runPtz sampleCameraEnv.ptz "zoom" "1000" := rfl

example : (runPtz sampleCameraEnv.ptz "zoom" "1000").2 =
    [.launched pkillCmd, .launched [webcamPtzPath, "zoom", "1000"]] := rfl

/-! ## Helper lemmas -/

theorem jget_append_last (l : JObj) (k : String) (v : Json) :
    jget (l ++ [(k, v)]) k = some v := by
  induction l with
  | nil => simp [jget]
  | cons kv rest ih => simp [jget, ih]

theorem jget_eq_none_of_hasKey_false (kvs : JObj) (k : String)
    (h : hasKey kvs k = false) : jget kvs k = none := by
  induction kvs with
  | nil => rfl
  | cons kv rest ih =>
    simp only [hasKey, List.any_cons, Bool.or_eq_false_iff] at h
    have h2 : hasKey rest k = false := by simpa [hasKey] using h.2
    simp [jget, ih h2, h.1]

theorem hasKey_of_jget_some (kvs : JObj) (k : String) (i : Json)
    (h : jget kvs k = some i) : hasKey kvs k = true := by
  cases hk : hasKey kvs k
  · rw [jget_eq_none_of_hasKey_false kvs k hk] at h
    exact Option.noConfusion h
  · rfl

theorem jget_objSet_new (kvs : JObj) (k : String) (v : Json)
    (h : hasKey kvs k = false) : jget (objSet kvs k v) k = some v := by
  rw [objSet, h]
  simp only [Bool.false_eq_true, if_false]
  exact jget_append_last kvs k v

theorem hasKey_okResp (r : Json) : hasKey (okResp r) "id" = false := rfl

theorem hasKey_errResp (c : Int) (m : String) : hasKey (errResp c m) "id" = false := rfl

/-- Every response object produced by the camera handler is a result
wrapper or an error wrapper. -/
theorem cameraHandle_shape (env : CameraEnv) (v : Json) :
    (∃ r, cameraHandle env v = okResp r) ∨ ∃ c m, cameraHandle env v = errResp c m := by
  rw [cameraHandle.eq_def]
  repeat' first
    | exact Or.inl ⟨_, rfl⟩
    | exact Or.inr ⟨_, _, rfl⟩
    | split
    | simp only []

/-- Every response object produced by the shell-executor handler is a
result wrapper or an error wrapper. -/
theorem cashHandle_shape (allowed : List String) (outcome : RunOutcome) (now : Int)
    (log : List LogEntry) (v : Json) :
    (∃ r, (cashHandle allowed outcome now log v).1 = okResp r) ∨
    ∃ c m, (cashHandle allowed outcome now log v).1 = errResp c m := by
  rw [cashHandle.eq_def]
  repeat' first
    | exact Or.inl ⟨_, rfl⟩
    | exact Or.inr ⟨_, _, rfl⟩
    | split
    | simp only []

theorem cameraHandle_no_id (env : CameraEnv) (v : Json) :
    hasKey (cameraHandle env v) "id" = false := by
  rcases cameraHandle_shape env v with ⟨r, h⟩ | ⟨c, m, h⟩ <;> rw [h]
  · exact hasKey_okResp r
  · exact hasKey_errResp c m

theorem cashHandle_no_id (allowed : List String) (outcome : RunOutcome) (now : Int)
    (log : List LogEntry) (v : Json) :
    hasKey (cashHandle allowed outcome now log v).1 "id" = false := by
  rcases cashHandle_shape allowed outcome now log v with ⟨r, h⟩ | ⟨c, m, h⟩ <;> rw [h]
  · exact hasKey_okResp r
  · exact hasKey_errResp c m

/-- Whether a decoded request value has an id field in the sense of the
protocol: it is an object with an "id" key. -/
def jsonHasIdField : Json → Bool
  | .obj kvs => hasKey kvs "id"
  | _ => false

theorem respondWithId_echo (resp : JObj) (kvs : JObj) (i : Json)
    (hresp : hasKey resp "id" = false) (h : jget kvs "id" = some i) :
    jget (respondWithId resp (.obj kvs)) "id" = some i := by
  have hmem : hasKey kvs "id" = true := hasKey_of_jget_some kvs "id" i h
  simp only [respondWithId, pyHasIdKey, hmem, pyGetIdItem, h]
  exact jget_objSet_new resp "id" i hresp

theorem respondWithId_no_id (resp : JObj) (v : Json)
    (hresp : hasKey resp "id" = false) (h : jsonHasIdField v = false) :
    hasKey (respondWithId resp v) "id" = false := by
  cases v with
  | obj kvs =>
    simp only [jsonHasIdField] at h
    simp only [respondWithId, pyHasIdKey, h]
    exact hresp
  | arr xs =>
    simp only [respondWithId, pyHasIdKey]
    cases hb : xs.any (fun x => match x with | Json.str s => s == "id" | _ => false) with
    | false => simp only [hb]; exact hresp
    | true => simp only [hb, pyGetIdItem]; exact hasKey_errResp _ _
  | str s =>
    simp only [respondWithId, pyHasIdKey]
    cases hb : containsSubstr "id" s with
    | false => simp only [hb]; exact hresp
    | true => simp only [hb, pyGetIdItem]; exact hasKey_errResp _ _
  | null => exact hasKey_errResp _ _
  | bool b => exact hasKey_errResp _ _
  | num n => exact hasKey_errResp _ _

theorem cashStep_fst (allowed : List String) (outcome : RunOutcome) (now : Int)
    (log : List LogEntry) (v : Json) :
    (cashStep allowed outcome now log v).1 =
      respondWithId (cashHandle allowed outcome now log v).1 v := rfl

/-- C1: in the stdin dispatch loops of the camera server and of the shell
executor, a decoded request object carrying an "id" field receives a
response carrying that identical id value (whatever JSON value it is,
number or string, on result and on error responses alike), and a decoded
request without an "id" field receives a response without an "id" field. -/
theorem c1_id_round_trip (cenv : CameraEnv) (allowed : List String)
    (outcome : RunOutcome) (now : Int) (log : List LogEntry) (v : Json) :
    (∀ kvs i, v = Json.obj kvs → jget kvs "id" = some i →
      jget (cameraStep cenv v) "id" = some i ∧
      jget (cashStep allowed outcome now log v).1 "id" = some i) ∧
    (jsonHasIdField v = false →
      hasKey (cameraStep cenv v) "id" = false ∧
      hasKey (cashStep allowed outcome now log v).1 "id" = false) := by
  constructor
  · rintro kvs i rfl h
    constructor
    · exact respondWithId_echo _ kvs i (cameraHandle_no_id cenv _) h
    · rw [cashStep_fst]
      exact respondWithId_echo _ kvs i (cashHandle_no_id allowed outcome now log _) h
  · intro h
    constructor
    · exact respondWithId_no_id _ v (cameraHandle_no_id cenv _) h
    · rw [cashStep_fst]
      exact respondWithId_no_id _ v (cashHandle_no_id allowed outcome now log _) h

/-- Witness for C1: a concrete numeric id 7 is echoed by both loops. -/
theorem c1_witness :
    jget (cameraStep sampleCameraEnv
      (Json.obj [("method", Json.str "get_camera_status"), ("id", Json.num 7)])) "id" =
        some (Json.num 7) ∧
    jget (cashStep defaultAllowedCommands (RunOutcome.completed 0 "" "") 0 []
      (Json.obj [("method", Json.str "list_allowed_commands"), ("id", Json.num 7)])).1 "id" =
        some (Json.num 7) := by
  constructor
  · exact ((c1_id_round_trip sampleCameraEnv defaultAllowedCommands
      (RunOutcome.completed 0 "" "") 0 []
      (Json.obj [("method", Json.str "get_camera_status"), ("id", Json.num 7)])).1
      [("method", Json.str "get_camera_status"), ("id", Json.num 7)]
      (Json.num 7) rfl rfl).1
  · exact ((c1_id_round_trip sampleCameraEnv defaultAllowedCommands
      (RunOutcome.completed 0 "" "") 0 []
      (Json.obj [("method", Json.str "list_allowed_commands"), ("id", Json.num 7)])).1
      [("method", Json.str "list_allowed_commands"), ("id", Json.num 7)]
      (Json.num 7) rfl rfl).2

/-- C2: when the external process is still running as the timeout
elapses, both runners kill the process and return success=false,
error="Command timed out after <timeout>s", empty stdout and stderr, and
exit code -1; the shell executor additionally logs that failure. -/
theorem c2_timeout_result (cmd : List String) (t : Int) (allowed : List String)
    (now : Int) (command : String) (timeout : Json) (log : List LogEntry)
    (tok : String) (rest : List String) :
    runCommand .timedOut cmd t =
      (⟨false, "", "", -1, some ("Command timed out after " ++ toString t ++ "s")⟩,
       [.launched cmd, .killed]) ∧
    (pySplit command = tok :: rest → allowed.contains tok = true →
      executeCommand allowed .timedOut now command timeout log =
        .ok (⟨false, "", "", -1, some ("Command timed out after " ++ pyFStr timeout ++ "s")⟩,
             logCommand now command false (-1) log,
             [.launched command, .killed])) := by
  refine ⟨rfl, fun hsplit hmem => ?_⟩
  have hne : command ≠ "" := by
    intro he
    subst he
    rw [show pySplit "" = [] from rfl] at hsplit
    exact List.noConfusion hsplit
  simp only [executeCommand, isCommandAllowed, if_neg hne, hsplit, hmem]

/-- Witness for C2 at a concrete allowed command and timeout 30. -/
theorem c2_witness :
    executeCommand defaultAllowedCommands .timedOut 5 "ls -l" (Json.num 30) [] =
      .ok (⟨false, "", "", -1, some "Command timed out after 30s"⟩,
           [⟨5, "ls -l", false, -1⟩], [.launched "ls -l", .killed]) :=
  ((c2_timeout_result ["sleep"] 10 defaultAllowedCommands 5 "ls -l" (Json.num 30) []
    "ls" ["-l"]).2 rfl rfl).trans (by rfl)

/-- A concrete bridge environment used by counterexamples and witnesses. -/
def sampleConnectorEnv : ConnectorEnv where
  cameraId := "camera1"
  brokerHost := "localhost"
  brokerPort := 1883
  nowMs := 1700000000000
  nowIso := "2026-10-12T00:00:00"
  mcpRunning := true
  sendFailure := none
  cameraEnv := sampleCameraEnv

/-- C3 counterexample: a message on the PTZ command topic whose payload
is not valid JSON produces NO published message at all (the claim demands
exactly one error response on the response topic); the following valid
message is still processed and yields exactly one response. -/
theorem c3_counterexample :
    processMessages sampleConnectorEnv [("camera/camera1/ptz/command", none)] = [] ∧
    processMessages sampleConnectorEnv
        [("camera/camera1/ptz/command", none),
         ("camera/camera1/ptz/command",
          some (Json.obj [("command", Json.str "pan"), ("value", Json.str "middle"),
                          ("id", Json.num 3)]))] =
      processMessages sampleConnectorEnv
        [("camera/camera1/ptz/command",
          some (Json.obj [("command", Json.str "pan"), ("value", Json.str "middle"),
                          ("id", Json.num 3)]))] ∧
    (processMessages sampleConnectorEnv
        [("camera/camera1/ptz/command",
          some (Json.obj [("command", Json.str "pan"), ("value", Json.str "middle"),
                          ("id", Json.num 3)]))]).length = 1 :=
  ⟨rfl, rfl, rfl⟩

/-- C3 (amended): an inbound message whose payload is not valid JSON is
caught per-message by the bridge: nothing is published for it (the
message is silently dropped from the bus's point of view, no error
response is produced), and the subscription loop continues and processes
all subsequent messages unchanged. -/
theorem c3_bad_payload_isolation (env : ConnectorEnv) (topic : String)
    (rest : List (String × Option Json)) :
    onMessage env topic none = [] ∧
    processMessages env ((topic, none) :: rest) = processMessages env rest :=
  ⟨rfl, rfl⟩

/-- The response line the specification claims for the ptz_control
end-to-end example (result carrying command and value fields). -/
def c4ClaimedOutput : JObj :=
  [("result", Json.obj [("success", Json.bool false), ("command", Json.str "zoom"),
     ("value", Json.str "5000"),
     ("error", Json.str "Step value \x275000\x27 exceeds safe range (-1000 to 1000)")]),
   ("id", Json.num 1)]

/-- Whether the result object of a response has a given key. -/
def respResultHasKey (resp : JObj) (k : String) : Bool :=
  match jget resp "result" with
  | some (.obj r) => hasKey r k
  | _ => false

/-- C4 counterexample: on the specification's example request the camera
server emits a result containing only success and error — the command and
value fields claimed by the specification are absent, so the claimed
output line is not produced. -/
theorem c4_counterexample :
    respResultHasKey (cameraStep sampleCameraEnv c4Request) "command" = false ∧
    respResultHasKey c4ClaimedOutput "command" = true ∧
    cameraStep sampleCameraEnv c4Request ≠ c4ClaimedOutput := by
  refine ⟨rfl, rfl, fun hcontra => ?_⟩
  have h1 : respResultHasKey (cameraStep sampleCameraEnv c4Request) "command" = false := rfl
  rw [hcontra] at h1
  exact absurd h1 (by decide)

/-- C4 (amended): whenever the webcam-ptz binary exists, the request
line of the specification's example produces the response
with result containing success=false and the range-error message only
(no command/value fields), with id 1 attached. -/
theorem c4_validation_rejection (env : CameraEnv) (h : env.ptz.ptzExists = true) :
    cameraStep env c4Request =
      [("result", Json.obj [("success", Json.bool false),
         ("error", Json.str "Step value \x275000\x27 exceeds safe range (-1000 to 1000)")]),
       ("id", Json.num 1)] := by
  rcases env with ⟨⟨pe, po1, po2⟩, l, s, st⟩
  rcases pe with _ | _
  · exact Bool.noConfusion h
  · rfl

/-- Witness for C4 at the sample environment. -/
theorem c4_witness :
    cameraStep sampleCameraEnv c4Request =
      [("result", Json.obj [("success", Json.bool false),
         ("error", Json.str "Step value \x275000\x27 exceeds safe range (-1000 to 1000)")]),
       ("id", Json.num 1)] :=
  c4_validation_rejection sampleCameraEnv rfl

/-- A concrete cheatsheet environment. -/
def sampleCheatsheetEnv : CheatsheetEnv where
  fileExists := true
  readError := none
  content := "cheatsheet body"

/-- C5 counterexample: the cheatsheet server's dispatch loop (one of the
loops the claim is about) answers an undecodable line with the bare
string-valued error object, not with the code -32700 / "Parse error"
response the claim states. -/
theorem c5_counterexample :
    cheatsheetLoop sampleCheatsheetEnv [none] = [[("error", Json.str "Invalid JSON")]] ∧
    [("error", Json.str "Invalid JSON")] ≠ parseErrorResponse := by
  refine ⟨rfl, fun hcontra => ?_⟩
  have hpair : ("error", Json.str "Invalid JSON") =
      ("error", Json.obj [("code", Json.num (-32700)), ("message", Json.str "Parse error")]) := by
    injection hcontra
  have hv : Json.str "Invalid JSON" =
      Json.obj [("code", Json.num (-32700)), ("message", Json.str "Parse error")] :=
    congrArg Prod.snd hpair
  exact Json.noConfusion hv

/-- C5 (amended): the camera and shell-executor loops answer an
undecodable line with the fixed id-less code -32700 "Parse error"
response and keep processing (an invalid line followed by a valid request
yields exactly the parse-error line then the correct response); the
cheatsheet server's loop also continues, but its parse-failure response is
the bare string-valued object error:"Invalid JSON". -/
theorem c5_parse_error_isolation (cenv : CameraEnv) (allowed : List String)
    (outcome : RunOutcome) (now : Int) (log : List LogEntry)
    (csenv : CheatsheetEnv) (v : Json) (rest : List (Option Json)) :
    (cameraLoop cenv (none :: rest) = parseErrorResponse :: cameraLoop cenv rest) ∧
    (cashLoop allowed outcome now log (none :: rest) =
      parseErrorResponse :: cashLoop allowed outcome now log rest) ∧
    (cameraLoop cenv [none, some v] = [parseErrorResponse, cameraStep cenv v]) ∧
    (hasKey parseErrorResponse "id" = false) ∧
    (jget parseErrorResponse "error" =
      some (.obj [("code", .num (-32700)), ("message", .str "Parse error")])) ∧
    (cheatsheetLoop csenv (none :: rest) = cheatsheetInvalidJson :: cheatsheetLoop csenv rest) ∧
    (cheatsheetLoop csenv [none, some v] = [cheatsheetInvalidJson, cheatsheetStep csenv v]) :=
  ⟨rfl, rfl, rfl, rfl, rfl, rfl, rfl⟩

theorem not_preset_of_digits (s : String) (h : pyIsdigit (lstripMinus s) = true) :
    validValues.contains s = false := by
  cases hc : validValues.contains s
  · rfl
  · exfalso
    have hmem : s ∈ validValues := List.mem_of_elem_eq_true hc
    simp only [validValues, List.mem_cons, List.mem_singleton, List.not_mem_nil, or_false]
      at hmem
    rcases hmem with rfl | rfl | rfl <;> exact Bool.noConfusion h

/-- C6: for a ptz_control call with a numeric value string (while the
control binary exists and the command is valid): a magnitude above 1000
is rejected with the descriptive range error and launches nothing —
neither the pkill pre-step nor the control binary; a magnitude of exactly
1000 passes validation and the call proceeds to the execution stage
(pkill followed by the control binary). -/
theorem c6_validation_precedes_execution (penv : PtzEnv) (c v : String) (steps : Int)
    (hex : penv.ptzExists = true) (hc : validCommands.contains c = true)
    (hd : pyIsdigit (lstripMinus v) = true) (hp : pyIntLstrip v = .ok steps) :
    (1000 < steps.natAbs →
      ptzControl penv (.str c) (.str v) =
        ([("success", .bool false),
          ("error", .str ("Step value \x27" ++ toString steps ++
            "\x27 exceeds safe range (-1000 to 1000)"))], [])) ∧
    (steps.natAbs = 1000 →
      ptzControl penv (.str c) (.str v) = runPtz penv c v ∧
      (∀ code out err, penv.pkillOutcome = .completed code out err →
        ∀ code2 out2 err2, penv.ptzOutcome = .completed code2 out2 err2 →
          (ptzControl penv (.str c) (.str v)).2 =
            [.launched pkillCmd, .launched [webcamPtzPath, c, v]])) := by
  have hcm : c ∈ validCommands := List.mem_of_elem_eq_true hc
  have hvm : v ∉ validValues := by
    intro hm
    simp only [validValues, List.mem_cons, List.mem_singleton, List.not_mem_nil, or_false]
      at hm
    rcases hm with rfl | rfl | rfl <;> exact Bool.noConfusion hd
  have hcne : (c == "") = false := by
    have hmem := hcm
    simp only [validCommands, List.mem_cons, List.mem_singleton, List.not_mem_nil, or_false]
      at hmem
    rcases hmem with rfl | rfl | rfl <;> rfl
  constructor
  · intro hrange
    simp [ptzControl, hex, hcne, hcm, hvm, hd, hp, hrange]
  · intro hrange
    have hnr : ¬(1000 < steps.natAbs) := by omega
    constructor
    · simp [ptzControl, hex, hcne, hcm, hvm, hd, hp, hnr]
    · intro code out err h1 code2 out2 err2 h2
      simp [ptzControl, hex, hcne, hcm, hvm, hd, hp, hnr, runPtz, runCommand, h1, h2]

/-- Witness for C6: value 5000 is rejected without any launch, value
1000 reaches the execution stage and launches pkill then the binary. -/
theorem c6_witness :
    ptzControl sampleCameraEnv.ptz (Json.str "zoom") (Json.str "5000") =
      ([("success", Json.bool false),
        ("error", Json.str "Step value \x275000\x27 exceeds safe range (-1000 to 1000)")], []) ∧
    ptzControl sampleCameraEnv.ptz (Json.str "zoom") (Json.str "1000") =
      runPtz sampleCameraEnv.ptz "zoom" "1000" ∧
    (ptzControl sampleCameraEnv.ptz (Json.str "zoom") (Json.str "1000")).2 =
      [.launched pkillCmd, .launched [webcamPtzPath, "zoom", "1000"]] := by
  refine ⟨?_, ?_, ?_⟩
  · exact ((c6_validation_precedes_execution sampleCameraEnv.ptz "zoom" "5000" 5000
      rfl rfl rfl rfl).1 (by decide)).trans (by rfl)
  · exact ((c6_validation_precedes_execution sampleCameraEnv.ptz "zoom" "1000" 1000
      rfl rfl rfl rfl).2 (by decide)).1
  · exact ((c6_validation_precedes_execution sampleCameraEnv.ptz "zoom" "1000" 1000
      rfl rfl rfl rfl).2 (by decide)).2 0 "" "" rfl 0 "ok" "" rfl

/-- C7: a command whose first whitespace-delimited token is not in the
allowlist is rejected by execute_command without launching any process,
with success=false and an error message naming the rejected token. -/
theorem c7_allowlist_gate (allowed : List String) (outcome : RunOutcome) (now : Int)
    (command : String) (timeout : Json) (log : List LogEntry)
    (tok : String) (rest : List String)
    (hsplit : pySplit command = tok :: rest) (hmem : allowed.contains tok = false) :
    executeCommand allowed outcome now command timeout log =
      .ok (⟨false, "", "", -1, some ("Command not allowed: " ++ tok)⟩,
           logCommand now command false (-1) log, []) := by
  have hne : command ≠ "" := by
    intro he
    subst he
    rw [show pySplit "" = [] from rfl] at hsplit
    exact List.noConfusion hsplit
  simp only [executeCommand, isCommandAllowed, if_neg hne, hsplit, hmem]

/-- Witness for C7: the token "forbidden" is not in the default
allowlist; nothing is launched and the result names it. -/
theorem c7_witness :
    executeCommand defaultAllowedCommands (.completed 0 "" "") 0 "forbidden ls"
        (Json.num 30) [] =
      .ok (⟨false, "", "", -1, some "Command not allowed: forbidden"⟩,
           [⟨0, "forbidden ls", false, -1⟩], []) :=
  (c7_allowlist_gate defaultAllowedCommands (.completed 0 "" "") 0 "forbidden ls"
    (Json.num 30) [] "forbidden" ["ls"] rfl rfl).trans (by rfl)

/-- The JSON-RPC request the bridge sends for a PTZ payload (after id
synthesis). -/
def ptzRequest (kvs : JObj) (rid : Json) : Json :=
  .obj [("method", .str "ptz_control"),
        ("params", .obj [("command", (jget kvs "command").getD .null),
                         ("value", (jget kvs "value").getD .null)]),
        ("id", rid)]

/-- C8 counterexample: a PTZ payload WITHOUT an id still produces a
published response carrying an "id" — the millisecond timestamp the
bridge synthesized — refuting the no-synthesized-id half of the claim. -/
theorem c8_counterexample :
    (match handlePtzCommand sampleConnectorEnv
        (Json.obj [("command", Json.str "pan"), ("value", Json.str "middle")]) with
      | [(_, Json.obj resp)] => jget resp "id"
      | _ => none) = some (Json.num 1700000000000) := rfl

/-- C8 (amended): while the proxied MCP server is running and reachable,
a dict PTZ payload with a truthy id gets that identical id on the
published response; a payload without an id gets a response carrying a
synthesized id (the bridge's millisecond timestamp) rather than no id. -/
theorem c8_id_preservation (env : ConnectorEnv) (kvs : JObj)
    (hrun : env.mcpRunning = true) (hsend : env.sendFailure = none) :
    (∀ i, jget kvs "id" = some i → pyTruthy i = true →
      handlePtzCommand env (.obj kvs) =
        [(responseTopic env "ptz", .obj (cameraStep env.cameraEnv (ptzRequest kvs i)))] ∧
      jget (cameraStep env.cameraEnv (ptzRequest kvs i)) "id" = some i) ∧
    (jget kvs "id" = none →
      handlePtzCommand env (.obj kvs) =
        [(responseTopic env "ptz",
          .obj (cameraStep env.cameraEnv (ptzRequest kvs (.num env.nowMs))))] ∧
      jget (cameraStep env.cameraEnv (ptzRequest kvs (.num env.nowMs))) "id" =
        some (.num env.nowMs)) := by
  have hobj : ∀ (kv kv2 : String × Json), pyTruthy (.obj [kv, kv2]) = true := fun _ _ => rfl
  have key : ∀ rid : Json,
      jget (cameraStep env.cameraEnv (ptzRequest kvs rid)) "id" = some rid := by
    intro rid
    exact respondWithId_echo (cameraHandle env.cameraEnv (ptzRequest kvs rid))
      [("method", .str "ptz_control"),
       ("params", .obj [("command", (jget kvs "command").getD .null),
                        ("value", (jget kvs "value").getD .null)]),
       ("id", rid)] rid (cameraHandle_no_id env.cameraEnv _) rfl
  constructor
  · intro i hi htruthy
    refine ⟨?_, key i⟩
    simp [handlePtzCommand, sendCommand, hrun, hsend, hi, htruthy, ptzRequest, hobj]
  · intro hi
    refine ⟨?_, key _⟩
    simp [handlePtzCommand, sendCommand, hrun, hsend, hi, ptzRequest, hobj, pyTruthy]

/-- Witness for C8 at a concrete truthy id 42. -/
theorem c8_witness :
    handlePtzCommand sampleConnectorEnv
        (Json.obj [("command", Json.str "pan"), ("value", Json.str "middle"),
                   ("id", Json.num 42)]) =
      [(responseTopic sampleConnectorEnv "ptz",
        Json.obj (cameraStep sampleCameraEnv
          (ptzRequest [("command", Json.str "pan"), ("value", Json.str "middle"),
                       ("id", Json.num 42)] (Json.num 42))))] ∧
    jget (cameraStep sampleCameraEnv
      (ptzRequest [("command", Json.str "pan"), ("value", Json.str "middle"),
                   ("id", Json.num 42)] (Json.num 42))) "id" = some (Json.num 42) :=
  (c8_id_preservation sampleConnectorEnv
    [("command", Json.str "pan"), ("value", Json.str "middle"), ("id", Json.num 42)]
    rfl rfl).1 (Json.num 42) rfl rfl

/-- C9 counterexample: invoking execute_command on the nonempty
all-whitespace command raises (IndexError from command.split()[0]) before
_log_command runs: the invocation returns no result and appends no log
entry, refuting "exactly one entry is appended after every invocation". -/
theorem c9_counterexample :
    executeCommand defaultAllowedCommands (.completed 0 "" "") 0 " " (Json.num 30) [] =
      .error "list index out of range" := rfl

/-- C9 (amended): every execute_command invocation that returns a result
(allowed, rejected, timed out, or failed) appends exactly one entry to
the history log, which stays bounded by 100 entries with the oldest
entry evicted first; an invocation on a nonempty all-whitespace command
raises instead and appends nothing. -/
theorem c9_bounded_log (allowed : List String) (outcome : RunOutcome) (now : Int)
    (command : String) (timeout : Json) (log : List LogEntry)
    (r : ProcessResult) (log' : List LogEntry) (ev : List (ProcEvent String))
    (h : executeCommand allowed outcome now command timeout log = .ok (r, log', ev)) :
    log' = logCommand now command r.success r.exitCode log ∧
    (log.length < 100 → log' = log ++ [⟨now, command, r.success, r.exitCode⟩]) ∧
    (log.length = 100 → log' = log.drop 1 ++ [⟨now, command, r.success, r.exitCode⟩]) ∧
    (log.length ≤ 100 → log'.length ≤ 100) := by
  have h1 : log' = logCommand now command r.success r.exitCode log := by
    unfold executeCommand at h
    split at h
    · exact Except.noConfusion h
    · simp only [Except.ok.injEq, Prod.mk.injEq] at h
      obtain ⟨hr, hl, _⟩ := h
      subst hr
      exact hl.symm
    · split at h
      · exact Except.noConfusion h
      · simp only [Except.ok.injEq, Prod.mk.injEq] at h
        obtain ⟨hr, hl, _⟩ := h
        subst hr
        exact hl.symm
  have hlt : ∀ e : LogEntry, log.length < 100 → logCommand now command r.success r.exitCode log =
      log ++ [⟨now, command, r.success, r.exitCode⟩] := by
    intro e hlen
    have hc : ¬((log ++ [(⟨now, command, r.success, r.exitCode⟩ : LogEntry)]).length > 100) := by
      simp only [List.length_append, List.length_singleton]
      omega
    simp only [logCommand, if_neg hc]
  refine ⟨h1, ?_, ?_, ?_⟩
  · intro hlen
    rw [h1]
    exact hlt ⟨now, command, r.success, r.exitCode⟩ hlen
  · intro hlen
    rw [h1]
    have hc : (log ++ [(⟨now, command, r.success, r.exitCode⟩ : LogEntry)]).length > 100 := by
      simp only [List.length_append, List.length_singleton]
      omega
    simp only [logCommand, if_pos hc]
    rw [List.drop_append_eq_append_drop]
    simp [hlen]
  · intro hle
    rcases Nat.lt_or_ge log.length 100 with hlt2 | hge
    · rw [h1, hlt ⟨now, command, r.success, r.exitCode⟩ hlt2]
      simp only [List.length_append, List.length_singleton]
      omega
    · have heq : log.length = 100 := Nat.le_antisymm hle hge
      rw [h1]
      have hc : (log ++ [(⟨now, command, r.success, r.exitCode⟩ : LogEntry)]).length > 100 := by
        simp only [List.length_append, List.length_singleton]
        omega
      simp only [logCommand, if_pos hc]
      rw [List.drop_append_eq_append_drop]
      simp only [List.length_append, List.length_singleton, List.length_drop]
      omega

/-- Witness for C9: a completed allowed command appends exactly its
entry to the empty log. -/
theorem c9_witness :
    [(⟨5, "ls -l", true, 0⟩ : LogEntry)] =
      logCommand 5 "ls -l" true 0 [] ∧
    ([(⟨5, "ls -l", true, 0⟩ : LogEntry)]).length ≤ 100 := by
  constructor
  · exact (c9_bounded_log defaultAllowedCommands (.completed 0 "out" "") 5 "ls -l"
      (Json.num 30) [] ⟨true, "out", "", 0, none⟩ [⟨5, "ls -l", true, 0⟩]
      [.launched "ls -l"] rfl).1
  · exact (c9_bounded_log defaultAllowedCommands (.completed 0 "out" "") 5 "ls -l"
      (Json.num 30) [] ⟨true, "out", "", 0, none⟩ [⟨5, "ls -l", true, 0⟩]
      [.launched "ls -l"] rfl).2.2.2 (by decide)

theorem pySplitAux_nil_of_all_space (cs : List Char) (h : cs.all isPySpace = true) :
    pySplitAux cs [] = [] := by
  induction cs with
  | nil => rfl
  | cons c cs ih =>
    simp only [List.all_cons, Bool.and_eq_true] at h
    simp [pySplitAux, h.1, ih h.2]

/-- C10: a nonempty all-whitespace command makes the allowlist check
command.split()[0] raise IndexError, which escapes execute_command and is
caught at the dispatch boundary: the caller receives the code -1 error
response carrying str(IndexError), no log entry is appended and no
process is launched. -/
theorem c10_whitespace_command_error (allowed : List String) (outcome : RunOutcome)
    (now : Int) (log : List LogEntry) (command : String)
    (hne : command ≠ "") (hws : command.data.all isPySpace = true) :
    cashHandle allowed outcome now log
      (.obj [("method", .str "execute_command"),
             ("params", .obj [("command", .str command)])]) =
      (errResp (-1) "list index out of range", log, []) := by
  have hsplit : pySplit command = [] := pySplitAux_nil_of_all_space command.data hws
  have hbeq : (command == "") = false := beq_eq_false_iff_ne.mpr hne
  simp [cashHandle, jget, jeq, pyTruthy, hbeq, executeCommand, isCommandAllowed,
    hne, hsplit]

/-- Witness for C10 at the three-space command. -/
theorem c10_witness :
    cashHandle defaultAllowedCommands (.completed 0 "" "") 0 []
      (.obj [("method", .str "execute_command"),
             ("params", .obj [("command", .str "   ")])]) =
      (errResp (-1) "list index out of range", [], []) :=
  c10_whitespace_command_error defaultAllowedCommands (.completed 0 "" "") 0 [] "   "
    (by decide) (by decide)
